import Mathlib

/-!
Shallow embedding of the stochastic-minigrid repository
(src/stochastic_envs/custom_objects.py) together with the minigrid
constants and rendering helpers that file imports and relies on.

Machine integers of the source are modelled as Nat, Python dictionary
lookups as Option-valued functions (a missing key, which raises KeyError
in Python, becomes none), the fatal assert in WorldObj.decode becomes an
Except.error, and numpy pixel values become exact rationals.
-/

/-- OBJECT_TO_IDX from custom_objects.py lines 20-33: map of object type
name to integer index. -/
def OBJECT_TO_IDX (s : String) : Option Nat :=
  if s = "unseen" then some 0
  else if s = "empty" then some 1
  else if s = "wall" then some 2
  else if s = "floor" then some 3
  else if s = "door" then some 4
  else if s = "key" then some 5
  else if s = "ball" then some 6
  else if s = "box" then some 7
  else if s = "goal" then some 8
  else if s = "lava" then some 9
  else if s = "agent" then some 10
  else if s = "teleporter" then some 11
  else none

/-- IDX_TO_OBJECT from custom_objects.py line 35: the inverse dictionary
of OBJECT_TO_IDX. -/
def IDX_TO_OBJECT : Nat → Option String
  | 0 => some "unseen"
  | 1 => some "empty"
  | 2 => some "wall"
  | 3 => some "floor"
  | 4 => some "door"
  | 5 => some "key"
  | 6 => some "ball"
  | 7 => some "box"
  | 8 => some "goal"
  | 9 => some "lava"
  | 10 => some "agent"
  | 11 => some "teleporter"
  | _ + 12 => none

/-- COLOR_TO_IDX, imported from minigrid.core.constants: map of color
name to integer index. -/
def COLOR_TO_IDX (s : String) : Option Nat :=
  if s = "red" then some 0
  else if s = "green" then some 1
  else if s = "blue" then some 2
  else if s = "purple" then some 3
  else if s = "yellow" then some 4
  else if s = "grey" then some 5
  else none

/-- IDX_TO_COLOR, imported from minigrid.core.constants: the inverse
dictionary of COLOR_TO_IDX. -/
def IDX_TO_COLOR : Nat → Option String
  | 0 => some "red"
  | 1 => some "green"
  | 2 => some "blue"
  | 3 => some "purple"
  | 4 => some "yellow"
  | 5 => some "grey"
  | _ + 6 => none

/-- An RGB pixel value; numpy scalar arithmetic is modelled exactly over
the rationals. -/
abbrev Pixel : Type := ℚ × ℚ × ℚ

/-- COLORS, imported from minigrid.core.constants: map of color name to
RGB value. -/
def COLORS (s : String) : Option Pixel :=
  if s = "red" then some (255, 0, 0)
  else if s = "green" then some (0, 255, 0)
  else if s = "blue" then some (0, 0, 255)
  else if s = "purple" then some (112, 39, 195)
  else if s = "yellow" then some (255, 255, 0)
  else if s = "grey" then some (100, 100, 100)
  else none

/-- Teleporter, custom_objects.py lines 129-144: the fields stored by
Teleporter.__init__, with the Python default arguments as Lean default
field values (active=True, active_colour="blue", inactive_colour="grey"). -/
structure Teleporter where
  is_active : Bool := true
  active_colour : String := "blue"
  inactive_colour : String := "grey"
deriving DecidableEq

/-- The color field a Teleporter passes to the WorldObj base constructor,
custom_objects.py line 143: active_colour if active else inactive_colour. -/
def Teleporter.color (t : Teleporter) : String :=
  if t.is_active then t.active_colour else t.inactive_colour

/-- The closed set of object values that WorldObj.decode can build
(custom_objects.py lines 101-118).  Wall, Floor, Ball, Key, Box, Door,
Goal and Lava are the minigrid classes imported on line 37; Goal and Lava
take no color argument and have fixed colors green and red. -/
inductive GridObj where
  | wall (color : String)
  | floor (color : String)
  | ball (color : String)
  | key (color : String)
  | box (color : String)
  | door (color : String) (is_open : Bool) (is_locked : Bool)
  | goal
  | lava
  | teleporter (t : Teleporter)
deriving DecidableEq

/-- The type tag stored on each object (the string each constructor
passes to the WorldObj base initializer). -/
def GridObj.tag : GridObj → String
  | .wall _ => "wall"
  | .floor _ => "floor"
  | .ball _ => "ball"
  | .key _ => "key"
  | .box _ => "box"
  | .door _ _ _ => "door"
  | .goal => "goal"
  | .lava => "lava"
  | .teleporter _ => "teleporter"

/-- The color field stored on each object: the constructor argument for
colored variants, the fixed minigrid defaults green and red for Goal and
Lava, and the derived color for Teleporter. -/
def GridObj.color : GridObj → String
  | .wall c => c
  | .floor c => c
  | .ball c => c
  | .key c => c
  | .box c => c
  | .door c _ _ => c
  | .goal => "green"
  | .lava => "red"
  | .teleporter t => t.color

/-- WorldObj.encode, custom_objects.py lines 83-85: the 3-tuple
(OBJECT_TO_IDX[self.type], COLOR_TO_IDX[self.color], 0).  The third
component is the literal 0.  A color outside the palette would raise
KeyError, modelled as none. -/
def WorldObj.encode (o : GridObj) : Option (Nat × Nat × Nat) := do
  let t ← OBJECT_TO_IDX o.tag
  let c ← COLOR_TO_IDX o.color
  return (t, c, 0)

/-- WorldObj.decode, custom_objects.py lines 87-122.  Dictionary lookups
that would raise KeyError and the final assert False are modelled as
Except.error; the empty and unseen indices return an ok none. -/
def WorldObj.decode (type_idx color_idx state : Nat) :
    Except String (Option GridObj) :=
  match IDX_TO_OBJECT type_idx with
  | none => .error "KeyError"
  | some obj_type =>
    match IDX_TO_COLOR color_idx with
    | none => .error "KeyError"
    | some color =>
      if obj_type = "empty" ∨ obj_type = "unseen" then .ok none
      else
        let is_open := state == 0
        let is_locked := state == 2
        if obj_type = "wall" then .ok (some (.wall color))
        else if obj_type = "floor" then .ok (some (.floor color))
        else if obj_type = "ball" then .ok (some (.ball color))
        else if obj_type = "key" then .ok (some (.key color))
        else if obj_type = "box" then .ok (some (.box color))
        else if obj_type = "door" then .ok (some (.door color is_open is_locked))
        else if obj_type = "goal" then .ok (some .goal)
        else if obj_type = "lava" then .ok (some .lava)
        else if obj_type = "teleporter" then .ok (some (.teleporter {}))
        else .error ("unknown object type in decode " ++ obj_type)

/-- can_overlap, custom_objects.py lines 63-65: base default returning
False; Teleporter does not override it. -/
def Teleporter.can_overlap (_ : Teleporter) : Bool := false

/-- can_pickup, custom_objects.py lines 67-69: base default returning
False; Teleporter does not override it. -/
def Teleporter.can_pickup (_ : Teleporter) : Bool := false

/-- can_contain, custom_objects.py lines 71-73: base default returning
False; Teleporter does not override it. -/
def Teleporter.can_contain (_ : Teleporter) : Bool := false

/-- see_behind, custom_objects.py lines 75-77: base default returning
True; Teleporter does not override it. -/
def Teleporter.see_behind (_ : Teleporter) : Bool := true

/-- toggle, custom_objects.py lines 79-81: the base default body is a
bare return False; the object and the environment are threaded
explicitly to show nothing is mutated. -/
def Teleporter.toggle {Env : Type} (t : Teleporter) (env : Env)
    (_pos : Int × Int) : Bool × Teleporter × Env :=
  (false, t, env)

/-- A tile bitmap: numpy array of shape (h, w, 3).  Pixels are addressed
as pix row column; entries outside the h by w region are irrelevant and
never touched by the rendering helpers. -/
structure Img where
  h : Nat
  w : Nat
  pix : Nat → Nat → Pixel

/-- The normalized coordinate of pixel index i along an axis of n pixels,
as computed inside fill_coords: (i + 0.5) / n. -/
def normCoord (i n : Nat) : ℚ := ((i : ℚ) + 1/2) / (n : ℚ)

/-- fill_coords, imported from minigrid.utils.rendering: paint color onto
every pixel of the buffer whose normalized center satisfies the filter
function fn (called as fn xf yf); all other entries are left unchanged. -/
def fill_coords (img : Img) (fn : ℚ → ℚ → Bool) (color : Pixel) : Img :=
  { img with pix := fun y x =>
      if y < img.h ∧ x < img.w ∧ fn (normCoord x img.w) (normCoord y img.h) = true
      then color else img.pix y x }

/-- point_in_circle, imported from minigrid.utils.rendering: the filter
function fn x y = ((x - cx)^2 + (y - cy)^2 <= r^2), written with
multiplications as in the source. -/
def point_in_circle (cx cy r : ℚ) : ℚ → ℚ → Bool :=
  fun x y => decide ((x - cx) * (x - cx) + (y - cy) * (y - cy) ≤ r * r)

/-- The numpy expression 0.5 * np.array(colour): each channel halved. -/
def scaleHalf : Pixel → Pixel
  | (r, g, b) => (r / 2, g / 2, b / 2)

/-- Teleporter.render, custom_objects.py lines 146-182.  Both COLORS
lookups happen before the branch, so an invalid color name in either
field makes the call fail (KeyError, modelled as none) regardless of the
branch taken.  The active branch paints disks of radii 0.48, 0.40, 0.20,
0.16, 0.12 centered at (0.5, 0.5), alternating the active color and
black; the inactive branch paints the same disks but every colored fill
uses 0.5 * inactive_colour. -/
def Teleporter.render (t : Teleporter) (img : Img) : Option Img := do
  let active_colour ← COLORS t.active_colour
  let inactive_colour ← COLORS t.inactive_colour
  if t.is_active then
    return fill_coords (fill_coords (fill_coords (fill_coords (fill_coords img
      (point_in_circle (1/2) (1/2) (48/100)) active_colour)
      (point_in_circle (1/2) (1/2) (40/100)) (0, 0, 0))
      (point_in_circle (1/2) (1/2) (20/100)) active_colour)
      (point_in_circle (1/2) (1/2) (16/100)) (0, 0, 0))
      (point_in_circle (1/2) (1/2) (12/100)) active_colour
  else
    return fill_coords (fill_coords (fill_coords (fill_coords (fill_coords img
      (point_in_circle (1/2) (1/2) (48/100)) (scaleHalf inactive_colour))
      (point_in_circle (1/2) (1/2) (40/100)) (0, 0, 0))
      (point_in_circle (1/2) (1/2) (20/100)) (scaleHalf inactive_colour))
      (point_in_circle (1/2) (1/2) (16/100)) (0, 0, 0))
      (point_in_circle (1/2) (1/2) (12/100)) (scaleHalf inactive_colour)

/-- Modelled from the spec (section 4.2): the shared disk sequence, radii
0.48, 0.40, 0.20, 0.16, 0.12 centered at (0.5, 0.5), painting colour,
black, colour, black, colour in that order.  Used to state that the two
render branches perform the identical disk sequence and differ only in
the colour used for the non-black fills. -/
def fillSeq (img : Img) (colour : Pixel) : Img :=
  fill_coords (fill_coords (fill_coords (fill_coords (fill_coords img
    (point_in_circle (1/2) (1/2) (48/100)) colour)
    (point_in_circle (1/2) (1/2) (40/100)) (0, 0, 0))
    (point_in_circle (1/2) (1/2) (20/100)) colour)
    (point_in_circle (1/2) (1/2) (16/100)) (0, 0, 0))
    (point_in_circle (1/2) (1/2) (12/100)) colour

/-- The visible contents of a bitmap, row major: the part of the buffer
the host framework reads. -/
def Img.toList (img : Img) : List (List Pixel) :=
  (List.range img.h).map fun y => (List.range img.w).map fun x => img.pix y x

/-- The squared normalized distance of the center of pixel (row y,
column x) from the tile center (0.5, 0.5). -/
def distSq (img : Img) (y x : Nat) : ℚ :=
  (normCoord x img.w - 1/2) * (normCoord x img.w - 1/2) +
    (normCoord y img.h - 1/2) * (normCoord y img.h - 1/2)

/-- The object WorldObj.decode actually rebuilds from the 3-tuple that
WorldObj.encode produces: the color is kept by the colored variants, the
door state flags are recomputed from the encoded state 0 (open, not
locked), and the teleporter is rebuilt with all constructor defaults. -/
def roundTrip : GridObj → GridObj
  | .wall c => .wall c
  | .floor c => .floor c
  | .ball c => .ball c
  | .key c => .key c
  | .box c => .box c
  | .door c _ _ => .door c true false
  | .goal => .goal
  | .lava => .lava
  | .teleporter _ => .teleporter {}

/-- Color indices invert: a palette color maps back to itself. -/
theorem color_idx_roundtrip {col : String} {i : Nat}
    (h : COLOR_TO_IDX col = some i) : IDX_TO_COLOR i = some col := by
  unfold COLOR_TO_IDX at h
  split_ifs at h with h1 h2 h3 h4 h5 h6 <;>
    (cases h; first | (subst h1; rfl) | (subst h2; rfl) | (subst h3; rfl) |
      (subst h4; rfl) | (subst h5; rfl) | (subst h6; rfl))

/-- Inversion of WorldObj.encode: a successful encoding determines the
type index, the color index and the constant state 0. -/
theorem encode_eq_some {o : GridObj} {t c s : Nat}
    (h : WorldObj.encode o = some (t, c, s)) :
    OBJECT_TO_IDX o.tag = some t ∧ COLOR_TO_IDX o.color = some c ∧ s = 0 := by
  unfold WorldObj.encode at h
  cases ht : OBJECT_TO_IDX o.tag with
  | none => rw [ht] at h; cases h
  | some t0 =>
    rw [ht] at h
    cases hc : COLOR_TO_IDX o.color with
    | none => rw [hc] at h; cases h
    | some c0 =>
      rw [hc] at h
      simp only [bind, Option.bind, pure, Option.some.injEq,
        Prod.mk.injEq] at h
      exact ⟨by rw [h.1], by rw [h.2.1], h.2.2.symm⟩

/-- C1: the round trip through WorldObj.encode and WorldObj.decode, as
amended: decoding the encoding of any object always rebuilds an object of
the same variant (same type tag); the rebuilt object is roundTrip of the
original, which keeps the color of every variant except the teleporter
(rebuilt with its constructor defaults, hence always active and blue) and
always gives the door variant is_open true and is_locked false, because
WorldObj.encode fixes the state component of the tuple to 0. -/
theorem decode_encode_roundtrip (o : GridObj) (t c s : Nat)
    (h : WorldObj.encode o = some (t, c, s)) :
    WorldObj.decode t c s = .ok (some (roundTrip o)) ∧
      (roundTrip o).tag = o.tag := by
  obtain ⟨ht, hc, hs⟩ := encode_eq_some h
  subst hs
  cases o with
  | wall col =>
    simp [GridObj.tag, OBJECT_TO_IDX, GridObj.color] at ht hc
    subst ht
    refine ⟨?_, rfl⟩
    simp [WorldObj.decode, IDX_TO_OBJECT, color_idx_roundtrip hc, roundTrip]
  | floor col =>
    simp [GridObj.tag, OBJECT_TO_IDX, GridObj.color] at ht hc
    subst ht
    refine ⟨?_, rfl⟩
    simp [WorldObj.decode, IDX_TO_OBJECT, color_idx_roundtrip hc, roundTrip]
  | ball col =>
    simp [GridObj.tag, OBJECT_TO_IDX, GridObj.color] at ht hc
    subst ht
    refine ⟨?_, rfl⟩
    simp [WorldObj.decode, IDX_TO_OBJECT, color_idx_roundtrip hc, roundTrip]
  | key col =>
    simp [GridObj.tag, OBJECT_TO_IDX, GridObj.color] at ht hc
    subst ht
    refine ⟨?_, rfl⟩
    simp [WorldObj.decode, IDX_TO_OBJECT, color_idx_roundtrip hc, roundTrip]
  | box col =>
    simp [GridObj.tag, OBJECT_TO_IDX, GridObj.color] at ht hc
    subst ht
    refine ⟨?_, rfl⟩
    simp [WorldObj.decode, IDX_TO_OBJECT, color_idx_roundtrip hc, roundTrip]
  | door col op lk =>
    simp [GridObj.tag, OBJECT_TO_IDX, GridObj.color] at ht hc
    subst ht
    refine ⟨?_, rfl⟩
    simp [WorldObj.decode, IDX_TO_OBJECT, color_idx_roundtrip hc, roundTrip]
  | goal =>
    simp [GridObj.tag, OBJECT_TO_IDX, GridObj.color, COLOR_TO_IDX] at ht hc
    subst ht; subst hc
    exact ⟨rfl, rfl⟩
  | lava =>
    simp [GridObj.tag, OBJECT_TO_IDX, GridObj.color, COLOR_TO_IDX] at ht hc
    subst ht; subst hc
    exact ⟨rfl, rfl⟩
  | teleporter tp =>
    simp [GridObj.tag, OBJECT_TO_IDX, GridObj.color] at ht hc
    subst ht
    refine ⟨?_, rfl⟩
    simp [WorldObj.decode, IDX_TO_OBJECT, color_idx_roundtrip hc, roundTrip]

/-- C1 counterexample: an inactive teleporter has color grey, its
encoding is the tuple (11, 5, 0), and decoding that tuple rebuilds the
default teleporter, whose color is blue — the round trip does not
preserve the color of the teleporter variant. -/
theorem encode_decode_loses_teleporter_color :
    WorldObj.encode (.teleporter { is_active := false }) = some (11, 5, 0) ∧
    WorldObj.decode 11 5 0 = .ok (some (.teleporter {})) ∧
    (GridObj.teleporter { is_active := false }).color = "grey" ∧
    (GridObj.teleporter {}).color = "blue" ∧
    (GridObj.teleporter {} : GridObj) ≠
      .teleporter { is_active := false } := by
  refine ⟨rfl, rfl, rfl, rfl, by decide⟩

/-- C1 witness: the amended round trip instantiated at a red wall, whose
encoding is (2, 0, 0). -/
theorem decode_encode_roundtrip_witness :
    WorldObj.decode 2 0 0 = .ok (some (roundTrip (.wall "red"))) ∧
      (roundTrip (GridObj.wall "red")).tag = (GridObj.wall "red").tag :=
  decode_encode_roundtrip (.wall "red") 2 0 0 rfl

/-- C3: the color field of a freshly constructed Teleporter is derived
from the active flag: active_colour when active is true, inactive_colour
when active is false; in particular the blue and grey instances of the
spec. -/
theorem teleporter_color_invariant :
    (∀ ac ic : String, (Teleporter.mk true ac ic).color = ac) ∧
    (∀ ac ic : String, (Teleporter.mk false ac ic).color = ic) ∧
    (Teleporter.mk true "blue" "grey").color = "blue" ∧
    (Teleporter.mk false "blue" "grey").color = "grey" :=
  ⟨fun _ _ => rfl, fun _ _ => rfl, rfl, rfl⟩

/-- C7: every freshly constructed Teleporter reports the base-class
capability defaults: cannot be overlapped, picked up, or contain, can be
seen behind, and toggle returns false leaving both the object and the
environment untouched. -/
theorem teleporter_default_capabilities :
    ∀ (t : Teleporter) (Env : Type) (env : Env) (pos : Int × Int),
      t.can_overlap = false ∧ t.can_pickup = false ∧
      t.can_contain = false ∧ t.see_behind = true ∧
      t.toggle env pos = (false, t, env) :=
  fun _ _ _ _ => ⟨rfl, rfl, rfl, rfl, rfl⟩

/-- C6: with a valid color index, decode returns ok-none exactly for the
unseen index 0 and the empty index 1; every other type index either
builds an object or fails, never returns nothing. -/
theorem decode_none_iff (t c s : Nat) (hc : c < 6) :
    WorldObj.decode t c s = .ok none ↔ t = 0 ∨ t = 1 := by
  rcases Nat.lt_or_ge t 12 with ht | ht
  · interval_cases t <;> interval_cases c <;>
      simp [WorldObj.decode, IDX_TO_OBJECT, IDX_TO_COLOR]
  · obtain ⟨k, rfl⟩ := Nat.exists_eq_add_of_le ht
    rw [Nat.add_comm] at *
    simp [WorldObj.decode, IDX_TO_OBJECT]

/-- C6 witness: decode of the unseen index with color red. -/
theorem decode_none_iff_witness :
    WorldObj.decode 0 0 0 = .ok none ↔ 0 = 0 ∨ 0 = 1 :=
  decode_none_iff 0 0 0 (by decide)

/-- C2, as amended: for every type index of the enumerated set other
than unseen (0), empty (1) and agent (10), and every valid color index,
decode builds an object of that variant; the object carries the given
color except for goal, lava and teleporter, which ignore the color
argument and take their fixed defaults (green, red, and the default blue
active teleporter); for the door the open and locked flags are derived
from state.  Moreover, with a valid color index, decode fails exactly
for the agent index 10 — which belongs to the enumerated set but has no
branch in decode — and for the indices outside the enumerated set. -/
theorem decode_valid_indices :
    (∀ t c s : Nat, t ∈ ([2, 3, 4, 5, 6, 7, 8, 9, 11] : List Nat) → c < 6 →
      ∃ o : GridObj, WorldObj.decode t c s = .ok (some o) ∧
        OBJECT_TO_IDX o.tag = some t ∧
        o.color = (if t = 8 then "green" else if t = 9 then "red"
          else if t = 11 then "blue" else (IDX_TO_COLOR c).getD "") ∧
        (t = 4 → o = .door ((IDX_TO_COLOR c).getD "") (s == 0) (s == 2))) ∧
    (∀ t c s : Nat, c < 6 →
      ((∃ e, WorldObj.decode t c s = .error e) ↔ t = 10 ∨ 12 ≤ t)) := by
  constructor
  · intro t c s ht hc
    fin_cases ht <;> interval_cases c <;>
      refine ⟨_, rfl, rfl, ?_, ?_⟩ <;>
        simp [GridObj.color, Teleporter.color, IDX_TO_COLOR]
  · intro t c s hc
    rcases Nat.lt_or_ge t 12 with ht | ht
    · interval_cases t <;> interval_cases c <;>
        simp [WorldObj.decode, IDX_TO_OBJECT, IDX_TO_COLOR]
    · obtain ⟨k, rfl⟩ := Nat.exists_eq_add_of_le ht
      rw [Nat.add_comm] at *
      simp [WorldObj.decode, IDX_TO_OBJECT]

/-- C2 counterexample: the agent type index 10 belongs to the enumerated
set (OBJECT_TO_IDX maps the agent tag to 10), yet decode with a valid
color index fails with the unrecoverable unknown-object error instead of
constructing an instance — so decode does not fail only outside the
enumerated set.  (Also, decode of the goal index 8 with the red color
index 0 yields the green goal object, not a red one.) -/
theorem decode_agent_in_set_fails :
    OBJECT_TO_IDX "agent" = some 10 ∧
    WorldObj.decode 10 0 0 = .error "unknown object type in decode agent" ∧
    WorldObj.decode 8 0 0 = .ok (some .goal) ∧
    (GridObj.goal).color = "green" :=
  ⟨rfl, rfl, rfl, rfl⟩

/-- C2 witness: the amended statement instantiated at the door index 4,
color index 0 (red) and state 1 (closed, not locked). -/
theorem decode_valid_indices_witness :
    ∃ o : GridObj, WorldObj.decode 4 0 1 = .ok (some o) ∧
      OBJECT_TO_IDX o.tag = some 4 ∧
      o.color = (if 4 = 8 then "green" else if 4 = 9 then "red"
        else if 4 = 11 then "blue" else (IDX_TO_COLOR 0).getD "") ∧
      (4 = 4 → o = .door ((IDX_TO_COLOR 0).getD "") (1 == 0) (1 == 2)) :=
  decode_valid_indices.1 4 0 1 (by decide) (by decide)

/-- Inversion of Teleporter.render: a successful render means both color
lookups succeeded, and the result is the five-disk sequence painted with
the full active color (active branch) or the halved inactive color
(inactive branch). -/
theorem render_eq_some {t : Teleporter} {img b : Img}
    (h : t.render img = some b) :
    ∃ a ci : Pixel, COLORS t.active_colour = some a ∧
      COLORS t.inactive_colour = some ci ∧
      b = (if t.is_active then fillSeq img a
           else fillSeq img (scaleHalf ci)) := by
  cases hA : COLORS t.active_colour with
  | none => rw [Teleporter.render, hA] at h; cases h
  | some a =>
    cases hI : COLORS t.inactive_colour with
    | none => rw [Teleporter.render, hA, hI] at h; simp at h
    | some ci =>
      refine ⟨a, ci, rfl, rfl, ?_⟩
      rw [Teleporter.render, hA, hI] at h
      cases hact : t.is_active <;> rw [hact] at h <;>
        simp only [bind, Option.bind, if_true, if_false, pure,
          Option.some.injEq, Bool.false_eq_true, if_neg, reduceIte] at h <;>
        simp [fillSeq, ← h]

/-- The five-disk sequence leaves the bitmap shape unchanged. -/
theorem fillSeq_h (img : Img) (c : Pixel) : (fillSeq img c).h = img.h := rfl

/-- The five-disk sequence leaves the bitmap shape unchanged. -/
theorem fillSeq_w (img : Img) (c : Pixel) : (fillSeq img c).w = img.w := rfl

/-- Pointwise description of the five-disk sequence on an in-bounds
pixel: the nested fills collapse to a radial case split on the squared
distance from the tile center, innermost region first. -/
theorem fillSeq_pix (img : Img) (colour : Pixel) (y x : Nat)
    (hy : y < img.h) (hx : x < img.w) :
    (fillSeq img colour).pix y x =
      (if distSq img y x ≤ (12/100) * (12/100) then colour
       else if distSq img y x ≤ (16/100) * (16/100) then (0, 0, 0)
       else if distSq img y x ≤ (20/100) * (20/100) then colour
       else if distSq img y x ≤ (40/100) * (40/100) then (0, 0, 0)
       else if distSq img y x ≤ (48/100) * (48/100) then colour
       else img.pix y x) := by
  simp only [fillSeq, fill_coords, point_in_circle, distSq, normCoord,
    hy, hx, true_and, decide_eq_true_eq]

/-- Pointwise description of the five-disk sequence outside the
outermost disk: any entry whose center is farther than 0.48 from the
tile center is untouched, whether in bounds or not. -/
theorem fillSeq_pix_far (img : Img) (colour : Pixel) (y x : Nat)
    (hfar : (48/100) * (48/100) < distSq img y x) :
    (fillSeq img colour).pix y x = img.pix y x := by
  have h48 := not_le.mpr hfar
  have h40 : ¬ distSq img y x ≤ (40/100) * (40/100) := fun hle =>
    h48 (hle.trans (by norm_num))
  have h20 : ¬ distSq img y x ≤ (20/100) * (20/100) := fun hle =>
    h48 (hle.trans (by norm_num))
  have h16 : ¬ distSq img y x ≤ (16/100) * (16/100) := fun hle =>
    h48 (hle.trans (by norm_num))
  have h12 : ¬ distSq img y x ≤ (12/100) * (12/100) := fun hle =>
    h48 (hle.trans (by norm_num))
  simp only [fillSeq, fill_coords, point_in_circle, decide_eq_true_eq]
  rw [if_neg (fun hc => h12 hc.2.2), if_neg (fun hc => h16 hc.2.2),
    if_neg (fun hc => h20 hc.2.2), if_neg (fun hc => h40 hc.2.2),
    if_neg (fun hc => h48 hc.2.2)]

/-- C4: rendering an active teleporter turns every in-bounds pixel into
a radial case split, innermost region first: within squared distance
0.12^2 of the tile center the pixel is the active color (this covers the
exact-center pixel), in the band (0.12, 0.16] it is black, in (0.16,
0.20] active color, in (0.20, 0.40] black (this covers radius 0.30), in
(0.40, 0.48] active color (this covers radius 0.44), and beyond 0.48 it
is left unchanged — the concentric-ring result of filling disks of radii
0.48, 0.40, 0.20, 0.16, 0.12 in that order. -/
theorem render_active_rings (t : Teleporter) (img b : Img) (a : Pixel)
    (hact : t.is_active = true) (ha : COLORS t.active_colour = some a)
    (hr : t.render img = some b) (y x : Nat)
    (hy : y < img.h) (hx : x < img.w) :
    b.pix y x =
      (if distSq img y x ≤ (12/100) * (12/100) then a
       else if distSq img y x ≤ (16/100) * (16/100) then (0, 0, 0)
       else if distSq img y x ≤ (20/100) * (20/100) then a
       else if distSq img y x ≤ (40/100) * (40/100) then (0, 0, 0)
       else if distSq img y x ≤ (48/100) * (48/100) then a
       else img.pix y x) := by
  obtain ⟨a2, ci, hA, hI, hb⟩ := render_eq_some hr
  rw [ha] at hA
  injection hA with hA2
  subst hA2
  rw [hact] at hb
  simp only [if_true] at hb
  subst hb
  exact fillSeq_pix img a y x hy hx

/-- An all-black square tile of side n, used to instantiate the
rendering theorems at concrete inputs. -/
def blackTile (n : Nat) : Img := ⟨n, n, fun _ _ => (0, 0, 0)⟩

/-- C4 witness: the ring description instantiated for the default active
blue teleporter on a one-pixel tile, whose single pixel sits at the
exact tile center. -/
theorem render_active_rings_witness :
    (fillSeq (blackTile 1) (0, 0, 255)).pix 0 0 =
      (if distSq (blackTile 1) 0 0 ≤ (12/100) * (12/100) then ((0 : ℚ), (0 : ℚ), (255 : ℚ))
       else if distSq (blackTile 1) 0 0 ≤ (16/100) * (16/100) then (0, 0, 0)
       else if distSq (blackTile 1) 0 0 ≤ (20/100) * (20/100) then (0, 0, 255)
       else if distSq (blackTile 1) 0 0 ≤ (40/100) * (40/100) then (0, 0, 0)
       else if distSq (blackTile 1) 0 0 ≤ (48/100) * (48/100) then (0, 0, 255)
       else (blackTile 1).pix 0 0) :=
  render_active_rings {} (blackTile 1) (fillSeq (blackTile 1) (0, 0, 255))
    (0, 0, 255) rfl rfl rfl 0 0 (by decide) (by decide)

/-- C9: whether the teleporter is active or inactive, rendering only
modifies pixels inside the outermost disk: any entry whose center lies
at squared distance greater than 0.48^2 from the tile center keeps its
original value. -/
theorem render_untouched_outside (t : Teleporter) (img b : Img)
    (hr : t.render img = some b) (y x : Nat)
    (hfar : (48/100) * (48/100) < distSq img y x) :
    b.pix y x = img.pix y x := by
  obtain ⟨a, ci, hA, hI, hb⟩ := render_eq_some hr
  subst hb
  split
  · exact fillSeq_pix_far img a y x hfar
  · exact fillSeq_pix_far img (scaleHalf ci) y x hfar

/-- C9 witness: the corner pixel of a 4 by 4 tile lies at squared
distance 9/32 > 0.48^2 from the center and is untouched by the default
active render. -/
theorem render_untouched_outside_witness :
    (fillSeq (blackTile 4) (0, 0, 255)).pix 0 0 = (blackTile 4).pix 0 0 :=
  render_untouched_outside {} (blackTile 4)
    (fillSeq (blackTile 4) (0, 0, 255)) rfl 0 0
    (by norm_num [distSq, normCoord, blackTile])

/-- C8: the inactive render performs the identical five-disk sequence as
the active one — the same radii 0.48, 0.40, 0.20, 0.16, 0.12 centered at
(0.5, 0.5) with black fills in between — but every non-black fill uses
the inactive color halved (0.5 times its RGB value), while the active
render of the same teleporter uses the full active color. -/
theorem render_inactive_dimmed (t : Teleporter) (img : Img) (a ci : Pixel)
    (hA : COLORS t.active_colour = some a)
    (hI : COLORS t.inactive_colour = some ci)
    (hact : t.is_active = false) :
    t.render img = some (fillSeq img (scaleHalf ci)) ∧
      Teleporter.render { t with is_active := true } img =
        some (fillSeq img a) := by
  constructor
  · rw [Teleporter.render, hA, hI, hact]
    simp [fillSeq]
  · rw [Teleporter.render]
    simp only [Teleporter.active_colour, Teleporter.inactive_colour,
      Teleporter.is_active]
    rw [hA, hI]
    simp [fillSeq]

/-- C8 witness: the dimmed-sequence statement instantiated for an
inactive blue/grey teleporter on a 2 by 2 tile. -/
theorem render_inactive_dimmed_witness :
    Teleporter.render ⟨false, "blue", "grey"⟩ (blackTile 2) =
        some (fillSeq (blackTile 2) (scaleHalf (100, 100, 100))) ∧
      Teleporter.render ⟨true, "blue", "grey"⟩ (blackTile 2) =
        some (fillSeq (blackTile 2) (0, 0, 255)) :=
  render_inactive_dimmed ⟨false, "blue", "grey"⟩ (blackTile 2)
    (0, 0, 255) (100, 100, 100) rfl rfl rfl

/-- C10: the active render does not depend on the inactive color field,
and the inactive render does not depend on the active color field: two
successful renders over the same bitmap that agree on the active flag
and on the branch-relevant color produce the same buffer. -/
theorem render_branch_colour_independence :
    (∀ (ac ic ic2 : String) (img b1 b2 : Img),
      Teleporter.render ⟨true, ac, ic⟩ img = some b1 →
      Teleporter.render ⟨true, ac, ic2⟩ img = some b2 →
      b1 = b2) ∧
    (∀ (ac ac2 ic : String) (img b1 b2 : Img),
      Teleporter.render ⟨false, ac, ic⟩ img = some b1 →
      Teleporter.render ⟨false, ac2, ic⟩ img = some b2 →
      b1 = b2) := by
  constructor
  · intro ac ic ic2 img b1 b2 h1 h2
    obtain ⟨a1, ci1, hA1, hI1, hb1⟩ := render_eq_some h1
    obtain ⟨a2, ci2, hA2, hI2, hb2⟩ := render_eq_some h2
    simp only [reduceIte] at hb1 hb2
    dsimp only at hA1 hA2
    rw [hA1] at hA2
    injection hA2 with ha
    subst ha
    rw [hb1, hb2]
  · intro ac ac2 ic img b1 b2 h1 h2
    obtain ⟨a1, ci1, hA1, hI1, hb1⟩ := render_eq_some h1
    obtain ⟨a2, ci2, hA2, hI2, hb2⟩ := render_eq_some h2
    simp only [Bool.false_eq_true, reduceIte] at hb1 hb2
    dsimp only at hI1 hI2
    rw [hI1] at hI2
    injection hI2 with hi
    subst hi
    rw [hb1, hb2]

/-- C10 witness: two active renders of blue teleporters differing only
in the inactive color field yield the same buffer on a one-pixel tile. -/
theorem render_branch_colour_independence_witness :
    (fillSeq (blackTile 1) ((0 : ℚ), (0 : ℚ), (255 : ℚ))) =
      (fillSeq (blackTile 1) (0, 0, 255)) :=
  render_branch_colour_independence.1 "blue" "grey" "yellow" (blackTile 1)
    (fillSeq (blackTile 1) (0, 0, 255)) (fillSeq (blackTile 1) (0, 0, 255))
    rfl rfl

/-- No full palette color equals half of any palette color, so a
full-brightness fill is always distinguishable from a dimmed one. -/
theorem palette_half_ne {s1 s2 : String} {a ci : Pixel}
    (hA : COLORS s1 = some a) (hI : COLORS s2 = some ci) :
    a ≠ scaleHalf ci := by
  unfold COLORS at hA hI
  split_ifs at hA hI <;>
    (cases hA; cases hI; norm_num [scaleHalf, Prod.ext_iff])

/-- The visible buffer produced by the five-disk sequence depends only
on the bitmap shape and its in-bounds entries. -/
theorem fillSeq_toList_congr (img1 img2 : Img) (c : Pixel)
    (hh : img1.h = img2.h) (hw : img1.w = img2.w)
    (hp : ∀ y x, y < img1.h → x < img1.w → img1.pix y x = img2.pix y x) :
    (fillSeq img1 c).toList = (fillSeq img2 c).toList := by
  unfold Img.toList
  rw [fillSeq_h, fillSeq_h, fillSeq_w, fillSeq_w, ← hh, ← hw]
  apply List.map_congr_left
  intro y hy
  apply List.map_congr_left
  intro x hx
  rw [List.mem_range] at hy hx
  rw [fillSeq_pix img1 c y x hy hx,
    fillSeq_pix img2 c y x (hh ▸ hy) (hw ▸ hx)]
  have hd : distSq img1 y x = distSq img2 y x := by
    unfold distSq
    rw [hh, hw]
  rw [hd, hp y x hy hx]

/-- C5, as amended: rendering is deterministic — it is a pure function
of the bitmap shape, the visible bitmap contents and the teleporter
fields, so two renders of identical inputs give identical visible
buffers — and the active and inactive renders of the same valid color
pair differ at every in-bounds pixel lying within the innermost disk
(squared distance at most 0.12^2 from the tile center); hence they
differ on any bitmap containing such a pixel, though not on degenerate
bitmaps that have no pixel inside the colored disks. -/
theorem render_deterministic_and_state_distinct :
    (∀ (t : Teleporter) (img1 img2 : Img),
      img1.h = img2.h → img1.w = img2.w →
      (∀ y x, y < img1.h → x < img1.w → img1.pix y x = img2.pix y x) →
      Option.map Img.toList (t.render img1) =
        Option.map Img.toList (t.render img2)) ∧
    (∀ (ac ic : String) (a ci : Pixel) (img bA bI : Img) (y x : Nat),
      COLORS ac = some a → COLORS ic = some ci →
      Teleporter.render ⟨true, ac, ic⟩ img = some bA →
      Teleporter.render ⟨false, ac, ic⟩ img = some bI →
      y < img.h → x < img.w →
      distSq img y x ≤ (12/100) * (12/100) →
      bA.pix y x ≠ bI.pix y x) := by
  constructor
  · intro t img1 img2 hh hw hp
    rw [Teleporter.render, Teleporter.render]
    cases hA : COLORS t.active_colour with
    | none => rfl
    | some a =>
      cases hI : COLORS t.inactive_colour with
      | none => rfl
      | some ci =>
        cases hact : t.is_active <;>
          simp only [bind, Option.bind, Bool.false_eq_true, reduceIte,
            pure, Option.map] <;>
          rw [show (fill_coords (fill_coords (fill_coords (fill_coords
            (fill_coords img1 (point_in_circle (1/2) (1/2) (48/100)) _)
            (point_in_circle (1/2) (1/2) (40/100)) (0, 0, 0))
            (point_in_circle (1/2) (1/2) (20/100)) _)
            (point_in_circle (1/2) (1/2) (16/100)) (0, 0, 0))
            (point_in_circle (1/2) (1/2) (12/100)) _) = fillSeq img1 _ from rfl,
            show (fill_coords (fill_coords (fill_coords (fill_coords
            (fill_coords img2 (point_in_circle (1/2) (1/2) (48/100)) _)
            (point_in_circle (1/2) (1/2) (40/100)) (0, 0, 0))
            (point_in_circle (1/2) (1/2) (20/100)) _)
            (point_in_circle (1/2) (1/2) (16/100)) (0, 0, 0))
            (point_in_circle (1/2) (1/2) (12/100)) _) = fillSeq img2 _ from rfl,
            fillSeq_toList_congr img1 img2 _ hh hw hp]
  · intro ac ic a ci img bA bI y x hA hI hrA hrI hy hx hzone
    obtain ⟨a1, ci1, hA1, hI1, hb1⟩ := render_eq_some hrA
    obtain ⟨a2, ci2, hA2, hI2, hb2⟩ := render_eq_some hrI
    simp only [Bool.false_eq_true, reduceIte] at hb1 hb2
    dsimp only at hA1 hI2
    rw [hA] at hA1
    rw [hI] at hI2
    injection hA1 with ha1
    injection hI2 with hi2
    subst ha1; subst hi2
    subst hb1; subst hb2
    rw [fillSeq_pix img a y x hy hx, fillSeq_pix img (scaleHalf ci) y x hy hx,
      if_pos hzone, if_pos hzone]
    exact palette_half_ne hA hI

/-- C5 counterexample: on a 2 by 2 tile every pixel center lies in the
black band between radii 0.20 and 0.40, so the active and the inactive
render of the same blue/grey pair produce identical (all-black) visible
buffers — rendering active versus inactive does not always produce
different pixel buffers. -/
theorem render_active_inactive_coincide_on_small_tile :
    Option.map Img.toList
        (Teleporter.render ⟨true, "blue", "grey"⟩ (blackTile 2)) =
      Option.map Img.toList
        (Teleporter.render ⟨false, "blue", "grey"⟩ (blackTile 2)) := by
  norm_num [Teleporter.render, COLORS, fill_coords, Img.toList,
    point_in_circle, normCoord, blackTile, List.range_succ, scaleHalf]

/-- C5 witness: the amended statement instantiated for blue/grey on a
one-pixel tile, whose single pixel is at the tile center: the active
render paints it full blue, the inactive render paints it half grey. -/
theorem render_deterministic_and_state_distinct_witness :
    (fillSeq (blackTile 1) ((0 : ℚ), (0 : ℚ), (255 : ℚ))).pix 0 0 ≠
      (fillSeq (blackTile 1) (scaleHalf (100, 100, 100))).pix 0 0 :=
  render_deterministic_and_state_distinct.2 "blue" "grey"
    (0, 0, 255) (100, 100, 100) (blackTile 1)
    (fillSeq (blackTile 1) (0, 0, 255))
    (fillSeq (blackTile 1) (scaleHalf (100, 100, 100))) 0 0
    rfl rfl rfl rfl (by decide) (by decide)
    (by norm_num [distSq, normCoord, blackTile])
